import Mathlib

set_option linter.unusedVariables false

/-!
Shallow embedding of the two orchestration scripts of the repository
(run-tests.py and start-server.py).  External commands are opaque: an
environment maps each command line to its outcome (normal exit with a
code, operator interrupt, or program-not-found).  Each embedded function
returns its Python return value together with the ordered list of
external invocations it issued; a raised-and-uncaught Python exception
(KeyboardInterrupt, FileNotFoundError) is an `Except.error`.
-/

/-- A command line: program name followed by its arguments. -/
abbrev Cmd := List String

/-- Outcome of one external command, as seen by subprocess.run. -/
inductive Outcome where
  | exited (code : Nat)
  | interrupted
  | notFound
deriving DecidableEq

/-- A Python exception escaping an embedded function uncaught. -/
inductive Exc where
  | interrupted
  | notFound
deriving DecidableEq

/-- Command issued by check_dotnet in both scripts. -/
def dotnetVersionCmd : Cmd := ["dotnet", "--version"]

namespace RunTests

/-- The world of external commands: each command line has one outcome. -/
abbrev Env := Cmd → Outcome

/-- Command issued by build_solution. -/
def buildCmd : Cmd := ["dotnet", "build", "--configuration", "Release"]

/-- Command issued by run_test_project for one test project path. -/
def testCmd (path : String) : Cmd :=
  ["dotnet", "test", path, "--verbosity", "normal",
   "--logger", "console;verbosity=normal",
   "--configuration", "Release", "--no-build",
   "--collect:XPlat Code Coverage"]

def unitTestsPath : String :=
  "tests/WikipediaMcpServer.UnitTests/WikipediaMcpServer.UnitTests.csproj"

def serviceTestsPath : String :=
  "tests/WikipediaMcpServer.ServiceTests/WikipediaMcpServer.ServiceTests.csproj"

def integrationTestsPath : String :=
  "tests/WikipediaMcpServer.IntegrationTests/WikipediaMcpServer.IntegrationTests.csproj"

def stdioTestsPath : String :=
  "tests/WikipediaMcpServer.StdioTests/WikipediaMcpServer.StdioTests.csproj"

def unitDesc : String := "Core business logic and utility function tests"

def serviceDesc : String := "Wikipedia service and MCP service layer tests"

def integrationDesc : String := "End-to-end API and HTTP endpoint tests"

def stdioDesc : String := "Standard I/O mode and MCP protocol tests"

/-- check_dotnet: runs dotnet --version; CalledProcessError and
FileNotFoundError both yield False; console reporting is not modelled. -/
def check_dotnet (env : Env) : Except Exc Bool × List Cmd :=
  match env dotnetVersionCmd with
  | .exited 0 => (.ok true, [dotnetVersionCmd])
  | .exited (_ + 1) => (.ok false, [dotnetVersionCmd])
  | .notFound => (.ok false, [dotnetVersionCmd])
  | .interrupted => (.error .interrupted, [dotnetVersionCmd])

/-- run_test_project: invokes dotnet test on one project with check=True;
a CalledProcessError is caught and its returncode returned, so the
return value is the commands exit code in both branches.  A
KeyboardInterrupt or FileNotFoundError propagates.  The progress and
pass/fail prints are reporting only and are not modelled. -/
def run_test_project (env : Env) (projectName projectPath description : String) :
    Except Exc Nat × List Cmd :=
  match env (testCmd projectPath) with
  | .exited c => (.ok c, [testCmd projectPath])
  | .interrupted => (.error .interrupted, [testCmd projectPath])
  | .notFound => (.error .notFound, [testCmd projectPath])

/-- build_solution: dotnet build with check=True; CalledProcessError is
caught and yields False, success yields True; other exceptions
propagate. -/
def build_solution (env : Env) : Except Exc Bool × List Cmd :=
  match env buildCmd with
  | .exited 0 => (.ok true, [buildCmd])
  | .exited (_ + 1) => (.ok false, [buildCmd])
  | .interrupted => (.error .interrupted, [buildCmd])
  | .notFound => (.error .notFound, [buildCmd])

/-- The test_projects registry of run_all_tests, in declared order:
(name, path, description). -/
def test_projects : List (String × String × String) :=
  [("Unit", unitTestsPath, unitDesc),
   ("Service", serviceTestsPath, serviceDesc),
   ("Integration", integrationTestsPath, integrationDesc),
   ("Stdio", stdioTestsPath, stdioDesc)]

/-- The for-loop of run_all_tests: total_failures accumulates the sum of
the per-project return values; every project is attempted in order. -/
def runUnits (env : Env) : List (String × String × String) → Except Exc Nat × List Cmd
  | [] => (.ok 0, [])
  | (n, p, d) :: rest =>
    match run_test_project env n p d with
    | (.ok c, log1) =>
      match runUnits env rest with
      | (.ok total, log2) => (.ok (c + total), log1 ++ log2)
      | (.error e, log2) => (.error e, log1 ++ log2)
    | (.error e, log1) => (.error e, log1)

/-- run_all_tests: build first; a failed build returns 1 with no test
project attempted; otherwise run every project and return the sum of
their exit codes. -/
def run_all_tests (env : Env) : Except Exc Nat × List Cmd :=
  match build_solution env with
  | (.error e, log) => (.error e, log)
  | (.ok false, log) => (.ok 1, log)
  | (.ok true, log) =>
    match runUnits env test_projects with
    | (r, log2) => (r, log ++ log2)

/-- Command issued by run_tests_with_coverage. -/
def coverageCmd : Cmd :=
  ["dotnet", "test", "--configuration", "Release",
   "--collect:XPlat Code Coverage", "--results-directory", "./TestResults",
   "--logger", "trx;LogFileName=TestResults.trx", "--verbosity", "normal"]

/-- run_tests_with_coverage: one consolidated dotnet test invocation;
exit code passed through. -/
def run_tests_with_coverage (env : Env) : Except Exc Nat × List Cmd :=
  match env coverageCmd with
  | .exited c => (.ok c, [coverageCmd])
  | .interrupted => (.error .interrupted, [coverageCmd])
  | .notFound => (.error .notFound, [coverageCmd])

/-- The test_configs dictionary lookup of run_specific_tests. -/
def test_configs (category : String) : Option (String × String × String) :=
  if category = "unit" then some ("Unit", unitTestsPath, unitDesc)
  else if category = "service" then some ("Service", serviceTestsPath, serviceDesc)
  else if category = "integration" then
    some ("Integration", integrationTestsPath, integrationDesc)
  else if category = "stdio" then some ("Stdio", stdioTestsPath, stdioDesc)
  else none

/-- run_specific_tests: an unknown category prints the two error lines
(modelled as the third component; console output of the delegated
run_test_project is reporting only and not modelled) and returns 1
without invoking anything; a known category delegates to
run_test_project. -/
def run_specific_tests (env : Env) (category : String) :
    Except Exc Nat × List Cmd × List String :=
  match test_configs category with
  | none =>
    (.ok 1, [],
      ["❌ Unknown test category: " ++ category,
       "   Available categories: unit, service, integration, stdio"])
  | some (n, p, d) =>
    ((run_test_project env n p d).1, (run_test_project env n p d).2, [])

/-- Command issued by run_fast_tests. -/
def fastCmd : Cmd := ["dotnet", "test", "--no-build", "--verbosity", "normal"]

/-- run_fast_tests: a single dotnet test --no-build invocation, exit code
passed through; KeyboardInterrupt is not caught here. -/
def run_fast_tests (env : Env) : Except Exc Nat × List Cmd :=
  match env fastCmd with
  | .exited c => (.ok c, [fastCmd])
  | .interrupted => (.error .interrupted, [fastCmd])
  | .notFound => (.error .notFound, [fastCmd])

/-- Command issued by run_watch_tests. -/
def watchCmd : Cmd := ["dotnet", "watch", "test", "--verbosity", "normal"]

/-- run_watch_tests: blocking dotnet watch test; a KeyboardInterrupt is
caught and converted to return value 0 (stopped by user); a normal exit
passes the code through. -/
def run_watch_tests (env : Env) : Except Exc Nat × List Cmd :=
  match env watchCmd with
  | .exited c => (.ok c, [watchCmd])
  | .interrupted => (.ok 0, [watchCmd])
  | .notFound => (.error .notFound, [watchCmd])

/-- The parsed argparse namespace: one store_true flag per option. -/
structure Args where
  all : Bool
  coverage : Bool
  unit : Bool
  service : Bool
  integration : Bool
  stdio : Bool
  fast : Bool
  watch : Bool
deriving DecidableEq

/-- Boolean string-prefix test on the underlying character lists
(kernel-reducible, unlike the substring-based core primitive). -/
def strHasPrefix (p s : String) : Bool := p.toList.isPrefixOf s.toList

/-- The long option strings argparse knows (the eight declared flags
plus the automatic --help). -/
def longOptions : List String :=
  ["--all", "--coverage", "--unit", "--service", "--integration",
   "--stdio", "--fast", "--watch", "--help"]

/-- Effect of one recognised long option on the namespace; --help makes
argparse exit with status 0. -/
def setLong (a : Args) (o : String) : Except Nat Args :=
  if o = "--help" then .error 0
  else if o = "--all" then .ok {a with all := true}
  else if o = "--coverage" then .ok {a with coverage := true}
  else if o = "--unit" then .ok {a with unit := true}
  else if o = "--service" then .ok {a with service := true}
  else if o = "--integration" then .ok {a with integration := true}
  else if o = "--stdio" then .ok {a with stdio := true}
  else if o = "--fast" then .ok {a with fast := true}
  else if o = "--watch" then .ok {a with watch := true}
  else .error 2

/-- Effect of one short option character (-a -c -u -s -i -f -w -h);
an unrecognised character is a usage error, exit status 2. -/
def setShort (a : Args) (c : Char) : Except Nat Args :=
  if c = 'h' then .error 0
  else if c = 'a' then .ok {a with all := true}
  else if c = 'c' then .ok {a with coverage := true}
  else if c = 'u' then .ok {a with unit := true}
  else if c = 's' then .ok {a with service := true}
  else if c = 'i' then .ok {a with integration := true}
  else if c = 'f' then .ok {a with fast := true}
  else if c = 'w' then .ok {a with watch := true}
  else .error 2

/-- One argv token, as argparse treats it: a --token selects the unique
long option it abbreviates (none or several is a usage error, exit 2); a
-x... token is a cluster of short option characters; anything else is an
unrecognised positional, exit 2.  The model covers single flag tokens;
argparse corner cases (a bare -- separator, deferred error reporting)
are outside the modelled domain. -/
def applyToken (a : Args) (t : String) : Except Nat Args :=
  if strHasPrefix "--" t then
    match longOptions.filter (fun o => strHasPrefix t o) with
    | [o] => setLong a o
    | _ => .error 2
  else if strHasPrefix "-" t then
    match t.toList with
    | [_] => .error 2
    | _ :: cs => cs.foldlM setShort a
    | [] => .error 2
  else .error 2

/-- parser.parse_args over the argv tokens, starting from the
all-false namespace; error n models sys.exit(n) inside argparse. -/
def parseArgs (tokens : List String) : Except Nat Args :=
  tokens.foldlM applyToken
    ⟨false, false, false, false, false, false, false, false⟩

/-- The operating mode the elif chain of main dispatches to. -/
inductive Mode where
  | coverage
  | unit
  | service
  | integration
  | stdio
  | fast
  | watch
  | all
deriving DecidableEq

/-- The elif chain of main: first flag in this fixed order wins; the
parsed --all flag is never consulted; no flag at all means run all. -/
def selectMode (a : Args) : Mode :=
  if a.coverage then .coverage
  else if a.unit then .unit
  else if a.service then .service
  else if a.integration then .integration
  else if a.stdio then .stdio
  else if a.fast then .fast
  else if a.watch then .watch
  else .all

/-- Dispatch of main to the chosen mode function. -/
def runMode (env : Env) : Mode → Except Exc Nat × List Cmd
  | .coverage => run_tests_with_coverage env
  | .unit =>
    ((run_specific_tests env "unit").1, (run_specific_tests env "unit").2.1)
  | .service =>
    ((run_specific_tests env "service").1, (run_specific_tests env "service").2.1)
  | .integration =>
    ((run_specific_tests env "integration").1,
     (run_specific_tests env "integration").2.1)
  | .stdio =>
    ((run_specific_tests env "stdio").1, (run_specific_tests env "stdio").2.1)
  | .fast => run_fast_tests env
  | .watch => run_watch_tests env
  | .all => run_all_tests env

/-- main of run-tests.py: parse argv (argparse may exit), check the
toolchain (missing or failing dotnet exits 1), run the selected mode and
exit with its return value.  The result is the final process exit code
(or an uncaught exception) plus the ordered invocation log. -/
def main (env : Env) (tokens : List String) : Except Exc Nat × List Cmd :=
  match parseArgs tokens with
  | .error code => (.ok code, [])
  | .ok args =>
    match check_dotnet env with
    | (.error e, log) => (.error e, log)
    | (.ok false, log) => (.ok 1, log)
    | (.ok true, log) =>
      match runMode env (selectMode args) with
      | (r, log2) => (r, log ++ log2)

end RunTests

namespace StartServer

/-- Observable events of start-server.py: an external invocation, the
time.sleep settle delay (seconds), and the endpoint banner print. -/
inductive Event where
  | ran (c : Cmd)
  | slept (secs : Nat)
  | printedInfo
deriving DecidableEq

/-- The world start-server.py runs in: outcomes of external commands,
the filesystem existence check, and the host OS. -/
structure World where
  run : Cmd → Outcome
  pathExists : String → Bool
  isWindows : Bool

/-- Path checked by check_project and passed to build and run. -/
def projectPath : String := "src/WikipediaMcpServer/WikipediaMcpServer.csproj"

/-- Command issued by build_project. -/
def buildCmd : Cmd := ["dotnet", "build", projectPath]

/-- Command issued by start_server. -/
def runCmd : Cmd := ["dotnet", "run", "--project", projectPath]

/-- The platform-specific stale-instance termination command: taskkill
by image name on Windows, pkill by command-line pattern elsewhere. -/
def killCmdFor (isWindows : Bool) : Cmd :=
  if isWindows then ["taskkill", "/f", "/im", "dotnet.exe"]
  else ["pkill", "-f", "dotnet.*WikipediaMcpServer"]

/-- check_dotnet of start-server.py: same contract as in the test
runner script. -/
def check_dotnet (w : World) : Except Exc Bool × List Event :=
  match w.run dotnetVersionCmd with
  | .exited 0 => (.ok true, [.ran dotnetVersionCmd])
  | .exited (_ + 1) => (.ok false, [.ran dotnetVersionCmd])
  | .notFound => (.ok false, [.ran dotnetVersionCmd])
  | .interrupted => (.error .interrupted, [.ran dotnetVersionCmd])

/-- check_project: a pure filesystem existence test, no invocation. -/
def check_project (w : World) : Bool := w.pathExists projectPath

/-- kill_existing_processes: runs the platform-specific kill command
with check=False inside a bare except, so every outcome of the command
(non-zero exit, missing program, even an interrupt raised during it) is
swallowed and the function returns normally; time.sleep(2) always
follows. -/
def kill_existing_processes (w : World) : Except Exc Unit × List Event :=
  match w.run (killCmdFor w.isWindows) with
  | .exited _ => (.ok (), [.ran (killCmdFor w.isWindows), .slept 2])
  | .interrupted => (.ok (), [.ran (killCmdFor w.isWindows), .slept 2])
  | .notFound => (.ok (), [.ran (killCmdFor w.isWindows), .slept 2])

/-- build_project: dotnet build with check=True; CalledProcessError is
caught and yields False; other exceptions propagate. -/
def build_project (w : World) : Except Exc Bool × List Event :=
  match w.run buildCmd with
  | .exited 0 => (.ok true, [.ran buildCmd])
  | .exited (_ + 1) => (.ok false, [.ran buildCmd])
  | .interrupted => (.error .interrupted, [.ran buildCmd])
  | .notFound => (.error .notFound, [.ran buildCmd])

/-- Which branch of start_server ran to completion. -/
inductive ServerOutcome where
  | exitedClean
  | stoppedByUser
  | failedToStart (code : Nat)
deriving DecidableEq

/-- start_server: blocking dotnet run with check=True.  A
KeyboardInterrupt is caught (stopped-by-user print) and the function
returns; a CalledProcessError is also caught (failed-to-start print)
and the function likewise returns normally, without re-raising or
recording the exit code for the caller. -/
def start_server (w : World) : Except Exc ServerOutcome × List Event :=
  match w.run runCmd with
  | .exited 0 => (.ok .exitedClean, [.ran runCmd])
  | .exited (c + 1) => (.ok (.failedToStart (c + 1)), [.ran runCmd])
  | .interrupted => (.ok .stoppedByUser, [.ran runCmd])
  | .notFound => (.error .notFound, [.ran runCmd])

/-- main of start-server.py: check_dotnet (failure exits 1), then
check_project (failure exits 1), then kill_existing_processes, then
build_project (failure exits 1), then the endpoint banner, then
start_server; falling off the end of main exits 0. -/
def main (w : World) : Except Exc Nat × List Event :=
  match check_dotnet w with
  | (.error e, ev) => (.error e, ev)
  | (.ok false, ev) => (.ok 1, ev)
  | (.ok true, ev) =>
    if check_project w then
      match kill_existing_processes w with
      | (.error e, ev2) => (.error e, ev ++ ev2)
      | (.ok _, ev2) =>
        match build_project w with
        | (.error e, ev3) => (.error e, ev ++ ev2 ++ ev3)
        | (.ok false, ev3) => (.ok 1, ev ++ ev2 ++ ev3)
        | (.ok true, ev3) =>
          match start_server w with
          | (.error e, ev4) => (.error e, ev ++ ev2 ++ ev3 ++ [.printedInfo] ++ ev4)
          | (.ok _, ev4) => (.ok 0, ev ++ ev2 ++ ev3 ++ [.printedInfo] ++ ev4)
    else (.ok 1, ev)

end StartServer

/-- Whether a command line is a build invocation (dotnet build ...). -/
def invokesBuild : Cmd → Bool
  | _ :: "build" :: _ => true
  | _ => false

/-- Environment in which every external command exits 0. -/
def envAllZero : RunTests.Env := fun _ => Outcome.exited 0

/-- Environment in which only the Service test project fails (exit 1). -/
def envServiceFails : RunTests.Env := fun c =>
  if c = RunTests.testCmd RunTests.serviceTestsPath then Outcome.exited 1
  else Outcome.exited 0

/-- Environment in which the solution build fails (exit 1). -/
def envBuildFails : RunTests.Env := fun c =>
  if c = RunTests.buildCmd then Outcome.exited 1 else Outcome.exited 0

/-- Environment in which the watch invocation is interrupted by the
operator and everything else exits 0. -/
def envWatchInterrupt : RunTests.Env := fun c =>
  if c = RunTests.watchCmd then Outcome.interrupted else Outcome.exited 0

/-- World in which every command exits 0 and the project file exists. -/
def worldAllZero : StartServer.World :=
  ⟨fun _ => Outcome.exited 0, fun _ => true, false⟩

/-- World in which the project file is missing. -/
def worldNoProject : StartServer.World :=
  ⟨fun _ => Outcome.exited 0, fun _ => false, false⟩

/-- World in which the service process exits on its own with code 3. -/
def worldFail3 : StartServer.World :=
  ⟨fun c => if c = StartServer.runCmd then Outcome.exited 3 else Outcome.exited 0,
   fun _ => true, false⟩

/-- World in which the operator interrupts the blocking service run. -/
def worldRunInterrupt : StartServer.World :=
  ⟨fun c => if c = StartServer.runCmd then Outcome.interrupted
            else Outcome.exited 0,
   fun _ => true, false⟩

/-- Helper: run_test_project always logs exactly its one test
invocation, whatever the outcome. -/
theorem runTestProjectLog (env : RunTests.Env) (n p d : String) :
    (RunTests.run_test_project env n p d).2 = [RunTests.testCmd p] := by
  unfold RunTests.run_test_project
  cases env (RunTests.testCmd p) <;> rfl

/-- Helper: parsing a single token is applying that token to the
all-false namespace. -/
theorem parseArgsSingle (t : String) :
    RunTests.parseArgs [t] =
      RunTests.applyToken ⟨false, false, false, false, false, false, false, false⟩ t := by
  unfold RunTests.parseArgs
  cases h : RunTests.applyToken ⟨false, false, false, false, false, false, false, false⟩ t <;>
    simp [List.foldlM, h]

/-- Helper: kill_existing_processes returns normally with the same kill
plus settle-delay event list whatever the kill command does. -/
theorem killAlwaysProceeds (w : StartServer.World) :
    StartServer.kill_existing_processes w =
      (.ok (), [.ran (StartServer.killCmdFor w.isWindows), .slept 2]) := by
  unfold StartServer.kill_existing_processes
  cases w.run (StartServer.killCmdFor w.isWindows) <;> rfl

/-- C1: in all mode, after a successful build, every one of the four
registered test projects is invoked in registry order, invocation
continues past individual failures, and the aggregate exit code is the
arithmetic sum of the four exit codes, which is zero iff every project
exited 0. -/
theorem C1_all_mode_sum (env : RunTests.Env) (a b c d : Nat)
    (hb : env RunTests.buildCmd = .exited 0)
    (h1 : env (RunTests.testCmd RunTests.unitTestsPath) = .exited a)
    (h2 : env (RunTests.testCmd RunTests.serviceTestsPath) = .exited b)
    (h3 : env (RunTests.testCmd RunTests.integrationTestsPath) = .exited c)
    (h4 : env (RunTests.testCmd RunTests.stdioTestsPath) = .exited d) :
    RunTests.run_all_tests env =
      (.ok (a + b + c + d),
        [RunTests.buildCmd,
         RunTests.testCmd RunTests.unitTestsPath,
         RunTests.testCmd RunTests.serviceTestsPath,
         RunTests.testCmd RunTests.integrationTestsPath,
         RunTests.testCmd RunTests.stdioTestsPath])
    ∧ (a + b + c + d = 0 ↔ a = 0 ∧ b = 0 ∧ c = 0 ∧ d = 0) := by
  refine ⟨?_, by omega⟩
  simp [RunTests.run_all_tests, RunTests.build_solution, hb, RunTests.runUnits,
        RunTests.test_projects, RunTests.run_test_project, h1, h2, h3, h4,
        Nat.add_assoc]

theorem C1_witness :
    RunTests.run_all_tests envServiceFails =
      (.ok (0 + 1 + 0 + 0),
        [RunTests.buildCmd,
         RunTests.testCmd RunTests.unitTestsPath,
         RunTests.testCmd RunTests.serviceTestsPath,
         RunTests.testCmd RunTests.integrationTestsPath,
         RunTests.testCmd RunTests.stdioTestsPath])
    ∧ (0 + 1 + 0 + 0 = 0 ↔ 0 = 0 ∧ 1 = 0 ∧ 0 = 0 ∧ 0 = 0) :=
  C1_all_mode_sum envServiceFails 0 1 0 0 (by decide) (by decide) (by decide)
    (by decide) (by decide)

/-- C2: in all mode a failed build aborts the run at once with the
non-zero return value 1 and no test project is invoked: the invocation
log holds only the build command. -/
theorem C2_build_failure_gates_units (env : RunTests.Env) (k : Nat)
    (hb : env RunTests.buildCmd = .exited (k + 1)) :
    RunTests.run_all_tests env = (.ok 1, [RunTests.buildCmd]) := by
  simp [RunTests.run_all_tests, RunTests.build_solution, hb]

theorem C2_witness :
    RunTests.run_all_tests envBuildFails = (.ok 1, [RunTests.buildCmd]) :=
  C2_build_failure_gates_units envBuildFails 0 (by decide)

/-- C3: run_specific_tests invokes a test project iff the category is
one of the four declared identifiers; any other identifier produces no
invocation, returns the non-zero value 1, and prints the unknown
category error followed by the line listing the valid identifiers. -/
theorem C3_scope_resolution (category : String) (env : RunTests.Env) :
    ((RunTests.run_specific_tests env category).2.1 ≠ [] ↔
      (category = "unit" ∨ category = "service" ∨ category = "integration" ∨
       category = "stdio"))
    ∧ (category ≠ "unit" → category ≠ "service" → category ≠ "integration" →
       category ≠ "stdio" →
        RunTests.run_specific_tests env category =
          (.ok 1, [],
            ["❌ Unknown test category: " ++ category,
             "   Available categories: unit, service, integration, stdio"])) := by
  unfold RunTests.run_specific_tests RunTests.test_configs
  split_ifs with hu hs hi hst <;> simp_all [runTestProjectLog]

theorem C3_witness :
    RunTests.run_specific_tests envAllZero "http" =
      (.ok 1, [],
        ["❌ Unknown test category: " ++ "http",
         "   Available categories: unit, service, integration, stdio"]) :=
  (C3_scope_resolution "http" envAllZero).2 (by decide) (by decide) (by decide)
    (by decide)

/-- C4: the lifecycle flow runs CheckPrerequisites, CheckProjectExists,
KillStaleInstances, Build, PrintEndpoints, RunBlocking in that fixed
order; if the project file is missing the flow halts with exit code 1
and neither the kill step nor the build is ever invoked. -/
theorem C4_lifecycle_order (w : StartServer.World)
    (hd : w.run dotnetVersionCmd = .exited 0) :
    (StartServer.check_project w = false →
      StartServer.main w = (.ok 1, [.ran dotnetVersionCmd]))
    ∧ (StartServer.check_project w = true →
       w.run StartServer.buildCmd = .exited 0 →
       w.run StartServer.runCmd = .exited 0 →
        StartServer.main w =
          (.ok 0,
            [.ran dotnetVersionCmd, .ran (StartServer.killCmdFor w.isWindows),
             .slept 2, .ran StartServer.buildCmd, .printedInfo,
             .ran StartServer.runCmd])) := by
  constructor
  · intro hp
    simp [StartServer.main, StartServer.check_dotnet, hd, hp]
  · intro hp hb hr
    simp [StartServer.main, StartServer.check_dotnet, hd, hp, killAlwaysProceeds,
          StartServer.build_project, hb, StartServer.start_server, hr]

theorem C4_witness :
    StartServer.main worldNoProject = (.ok 1, [.ran dotnetVersionCmd]) :=
  (C4_lifecycle_order worldNoProject (by decide)).1 (by decide)

/-- C5 counterexample: with the service process exiting on its own with
code 3 (build and prerequisites fine), start_server takes its
failed-to-start branch, yet main falls off the end and the process exit
code is 0, not the claimed 3. -/
theorem C5_counterexample :
    (StartServer.start_server worldFail3).1 = .ok (.failedToStart 3)
    ∧ (StartServer.main worldFail3).1 = .ok 0
    ∧ (StartServer.main worldFail3).1 ≠ .ok 3 := by
  refine ⟨rfl, rfl, ?_⟩
  have h0 : (StartServer.main worldFail3).1 = .ok 0 := rfl
  rw [h0]
  simp

/-- C5 amended: an operator interrupt during the blocking run yields the
stopped-by-user branch and process exit code 0; the service exiting on
its own with a non-zero code yields the failed-to-start branch, but the
process exit code is still 0 — the non-zero service code is only
printed, never surfaced as the exit code. -/
theorem C5_amended_run_outcomes (w : StartServer.World)
    (hd : w.run dotnetVersionCmd = .exited 0)
    (hp : StartServer.check_project w = true)
    (hb : w.run StartServer.buildCmd = .exited 0) :
    (w.run StartServer.runCmd = .interrupted →
      (StartServer.start_server w).1 = .ok .stoppedByUser
      ∧ (StartServer.main w).1 = .ok 0)
    ∧ (∀ k, w.run StartServer.runCmd = .exited (k + 1) →
      (StartServer.start_server w).1 = .ok (.failedToStart (k + 1))
      ∧ (StartServer.main w).1 = .ok 0) := by
  constructor
  · intro hr
    constructor
    · simp [StartServer.start_server, hr]
    · simp [StartServer.main, StartServer.check_dotnet, hd, hp, killAlwaysProceeds,
            StartServer.build_project, hb, StartServer.start_server, hr]
  · intro k hr
    constructor
    · simp [StartServer.start_server, hr]
    · simp [StartServer.main, StartServer.check_dotnet, hd, hp, killAlwaysProceeds,
            StartServer.build_project, hb, StartServer.start_server, hr]

theorem C5_witness :
    (StartServer.start_server worldRunInterrupt).1 = .ok .stoppedByUser
    ∧ (StartServer.main worldRunInterrupt).1 = .ok 0 :=
  (C5_amended_run_outcomes worldRunInterrupt (by decide) (by decide)
    (by decide)).1 (by decide)

/-- C8: stale-instance cleanup runs the platform-specific kill command
(taskkill by image name on Windows, pkill keyed by the service
command-line pattern elsewhere), swallows every outcome of that command
and returns normally, and the fixed two-second settle delay always
follows the kill and precedes the build invocation in the main flow. -/
theorem C8_kill_best_effort (w : StartServer.World)
    (hd : w.run dotnetVersionCmd = .exited 0)
    (hp : StartServer.check_project w = true) :
    StartServer.kill_existing_processes w =
      (.ok (), [.ran (StartServer.killCmdFor w.isWindows), .slept 2])
    ∧ StartServer.killCmdFor true = ["taskkill", "/f", "/im", "dotnet.exe"]
    ∧ StartServer.killCmdFor false = ["pkill", "-f", "dotnet.*WikipediaMcpServer"]
    ∧ (StartServer.main w).2.take 4 =
        [.ran dotnetVersionCmd, .ran (StartServer.killCmdFor w.isWindows),
         .slept 2, .ran StartServer.buildCmd] := by
  refine ⟨killAlwaysProceeds w, rfl, rfl, ?_⟩
  cases hb : w.run StartServer.buildCmd with
  | exited n =>
    cases n with
    | zero =>
      cases hr : w.run StartServer.runCmd with
      | exited m =>
        cases m <;>
          simp [StartServer.main, StartServer.check_dotnet, hd, hp,
                killAlwaysProceeds, StartServer.build_project, hb,
                StartServer.start_server, hr]
      | interrupted =>
        simp [StartServer.main, StartServer.check_dotnet, hd, hp,
              killAlwaysProceeds, StartServer.build_project, hb,
              StartServer.start_server, hr]
      | notFound =>
        simp [StartServer.main, StartServer.check_dotnet, hd, hp,
              killAlwaysProceeds, StartServer.build_project, hb,
              StartServer.start_server, hr]
    | succ k =>
      simp [StartServer.main, StartServer.check_dotnet, hd, hp,
            killAlwaysProceeds, StartServer.build_project, hb]
  | interrupted =>
    simp [StartServer.main, StartServer.check_dotnet, hd, hp,
          killAlwaysProceeds, StartServer.build_project, hb]
  | notFound =>
    simp [StartServer.main, StartServer.check_dotnet, hd, hp,
          killAlwaysProceeds, StartServer.build_project, hb]

theorem C8_witness :
    StartServer.kill_existing_processes worldAllZero =
      (.ok (), [.ran (StartServer.killCmdFor worldAllZero.isWindows), .slept 2])
    ∧ StartServer.killCmdFor true = ["taskkill", "/f", "/im", "dotnet.exe"]
    ∧ StartServer.killCmdFor false = ["pkill", "-f", "dotnet.*WikipediaMcpServer"]
    ∧ (StartServer.main worldAllZero).2.take 4 =
        [.ran dotnetVersionCmd, .ran (StartServer.killCmdFor worldAllZero.isWindows),
         .slept 2, .ran StartServer.buildCmd] :=
  C8_kill_best_effort worldAllZero (by decide) (by decide)

/-- C6: fast mode issues exactly one external invocation, the aggregate
test command with building disabled, and a fast-mode run of main never
issues a build invocation: its log is only the toolchain version probe,
or that probe followed by the no-build test command, neither of which is
a build command. -/
theorem C6_fast_mode_never_builds (env : RunTests.Env) :
    (RunTests.run_fast_tests env).2 = [RunTests.fastCmd]
    ∧ RunTests.fastCmd = ["dotnet", "test", "--no-build", "--verbosity", "normal"]
    ∧ ((RunTests.main env ["--fast"]).2 = [dotnetVersionCmd]
       ∨ (RunTests.main env ["--fast"]).2 = [dotnetVersionCmd, RunTests.fastCmd])
    ∧ invokesBuild dotnetVersionCmd = false
    ∧ invokesBuild RunTests.fastCmd = false := by
  refine ⟨?_, rfl, ?_, rfl, rfl⟩
  · unfold RunTests.run_fast_tests
    cases env RunTests.fastCmd <;> rfl
  · have hp : RunTests.parseArgs ["--fast"] =
        Except.ok ⟨false, false, false, false, false, false, true, false⟩ := rfl
    cases hv : env dotnetVersionCmd with
    | exited n =>
      cases n with
      | zero =>
        right
        cases hf : env RunTests.fastCmd <;>
          simp [RunTests.main, hp, RunTests.check_dotnet, hv, RunTests.runMode,
                RunTests.selectMode, RunTests.run_fast_tests, hf]
      | succ k =>
        left
        simp [RunTests.main, hp, RunTests.check_dotnet, hv]
    | interrupted =>
      left
      simp [RunTests.main, hp, RunTests.check_dotnet, hv]
    | notFound =>
      left
      simp [RunTests.main, hp, RunTests.check_dotnet, hv]

/-- C7: in watch mode an operator interrupt is caught and reported as a
clean stop: run_watch_tests returns 0, and a watch-mode run of main
exits with code 0 (the interrupt is not a failure). -/
theorem C7_watch_interrupt_clean (env : RunTests.Env)
    (h : env RunTests.watchCmd = .interrupted) :
    RunTests.run_watch_tests env = (.ok 0, [RunTests.watchCmd])
    ∧ (env dotnetVersionCmd = .exited 0 →
        RunTests.main env ["--watch"] =
          (.ok 0, [dotnetVersionCmd, RunTests.watchCmd])) := by
  constructor
  · simp [RunTests.run_watch_tests, h]
  · intro hv
    have hp : RunTests.parseArgs ["--watch"] =
        Except.ok ⟨false, false, false, false, false, false, false, true⟩ := rfl
    simp [RunTests.main, hp, RunTests.check_dotnet, hv, RunTests.runMode,
          RunTests.selectMode, RunTests.run_watch_tests, h]

theorem C7_witness :
    RunTests.run_watch_tests envWatchInterrupt = (.ok 0, [RunTests.watchCmd])
    ∧ RunTests.main envWatchInterrupt ["--watch"] =
        (.ok 0, [dotnetVersionCmd, RunTests.watchCmd]) :=
  ⟨(C7_watch_interrupt_clean envWatchInterrupt (by decide)).1,
   (C7_watch_interrupt_clean envWatchInterrupt (by decide)).2 (by decide)⟩

/-- C9 counterexample: the mode flags are not mutually exclusive —
passing --unit and --service together is accepted by the parser (both
flags set, no usage error) and main then runs the unit scope and exits
0 in an all-passing environment, instead of failing with a usage
error. -/
theorem C9_counterexample_two_flags :
    RunTests.parseArgs ["--unit", "--service"] =
      Except.ok ⟨false, false, true, true, false, false, false, false⟩
    ∧ RunTests.main envAllZero ["--unit", "--service"] =
        (.ok 0, [dotnetVersionCmd, RunTests.testCmd RunTests.unitTestsPath]) :=
  ⟨rfl, rfl⟩

/-- C9 amended: an unknown flag is a usage error — argparse exits with
status 2 and a failed parse runs no mode and no external command, main
exiting with the parser status; but the mode flags are not mutually
exclusive: several of them together parse fine and one mode runs. -/
theorem C9_amended_usage_errors (t : String)
    (h1 : RunTests.strHasPrefix "--" t = true)
    (h2 : ∀ o ∈ RunTests.longOptions, RunTests.strHasPrefix t o = false) :
    RunTests.parseArgs [t] = .error 2
    ∧ (∀ env tokens code, RunTests.parseArgs tokens = .error code →
        RunTests.main env tokens = (.ok code, []))
    ∧ RunTests.parseArgs ["--unit", "--service"] =
        Except.ok ⟨false, false, true, true, false, false, false, false⟩ := by
  refine ⟨?_, ?_, rfl⟩
  · have hf : RunTests.longOptions.filter (fun o => RunTests.strHasPrefix t o) = [] := by
      rw [List.filter_eq_nil_iff]
      intro o ho
      simp [h2 o ho]
    rw [parseArgsSingle]
    unfold RunTests.applyToken
    rw [if_pos h1, hf]
  · intro env tokens code h
    simp [RunTests.main, h]

theorem C9_witness :
    RunTests.parseArgs ["--bogus"] = .error 2
    ∧ (∀ env tokens code, RunTests.parseArgs tokens = .error code →
        RunTests.main env tokens = (.ok code, []))
    ∧ RunTests.parseArgs ["--unit", "--service"] =
        Except.ok ⟨false, false, true, true, false, false, false, false⟩ :=
  C9_amended_usage_errors "--bogus" (by decide) (by decide)

/-- C10: with several mode flags supplied, the elif chain of main picks
exactly one mode by the fixed priority coverage, unit, service,
integration, stdio, fast, watch; all mode runs only when none of those
seven flags is set; the parsed --all flag itself is never consulted. -/
theorem C10_mode_priority (a : RunTests.Args) :
    (RunTests.selectMode a = .coverage ↔ a.coverage = true)
    ∧ (RunTests.selectMode a = .unit ↔
        (a.coverage = false ∧ a.unit = true))
    ∧ (RunTests.selectMode a = .service ↔
        (a.coverage = false ∧ a.unit = false ∧ a.service = true))
    ∧ (RunTests.selectMode a = .integration ↔
        (a.coverage = false ∧ a.unit = false ∧ a.service = false ∧
         a.integration = true))
    ∧ (RunTests.selectMode a = .stdio ↔
        (a.coverage = false ∧ a.unit = false ∧ a.service = false ∧
         a.integration = false ∧ a.stdio = true))
    ∧ (RunTests.selectMode a = .fast ↔
        (a.coverage = false ∧ a.unit = false ∧ a.service = false ∧
         a.integration = false ∧ a.stdio = false ∧ a.fast = true))
    ∧ (RunTests.selectMode a = .watch ↔
        (a.coverage = false ∧ a.unit = false ∧ a.service = false ∧
         a.integration = false ∧ a.stdio = false ∧ a.fast = false ∧
         a.watch = true))
    ∧ (RunTests.selectMode a = .all ↔
        (a.coverage = false ∧ a.unit = false ∧ a.service = false ∧
         a.integration = false ∧ a.stdio = false ∧ a.fast = false ∧
         a.watch = false))
    ∧ (∀ b : Bool, RunTests.selectMode {a with all := b} = RunTests.selectMode a) := by
  rcases a with ⟨al, cov, un, se, ig, st, fa, wa⟩
  revert al cov un se ig st fa wa
  decide

theorem C10_witness :
    RunTests.selectMode ⟨true, false, true, true, false, false, true, false⟩ =
      .unit :=
  ((C10_mode_priority ⟨true, false, true, true, false, false, true, false⟩).2.1).mpr
    ⟨rfl, rfl⟩
